import Mathlib

/-!
Verification of the CCotti HTTP server's coordination layer.

Shallow embedding of:
  * `HttpServer::update_configuration` (src/httpserver.cpp, lines 189-249)
  * `HttpServer::on_accept` dispatch (src/httpserver.cpp, lines 53-101)
  * `HttpServer::response` (src/httpserver.cpp, lines 131-170)
  * `Sem::Sem`, `Sem::~Sem`, `Sem::op` (src/sem.cpp)
  * `MsgQueue::MsgQueue`, `MsgQueue::~MsgQueue` (include/msg_queue.h)

C `int` fields are modelled as unbounded `Int` (no value in these claims
approaches 2^31). Strings are modelled as `List Char` where the C code
works on `char` buffers.
-/

/-! ## Data model: the shared record (include/httpserver.h) -/

/-- Compiled-in defaults from include/httpserver.h. -/
def DEFAULT_BACKLOG : Int := 2

def DEFAULT_MAX_CLIENTS : Int := 1000

def DEFAULT_SENSOR_PERIOD : Int := 1000

def DEFAULT_SAMPLES_MOVING_AVERAGE_FILTER : Int := 5

/-- `struct serverData` (include/httpserver.h): the record held in the
shared memory arena, one logical instance, attached by every process. -/
structure serverData where
  backlog : Int
  max_clients : Int
  sensor_period : Int
  samples_moving_average_filter : Int
  client_count : Int
deriving DecidableEq, Repr

/-! ## C library helpers used by update_configuration -/

/-- C `isspace` on the default locale: the six standard whitespace chars. -/
def isSpaceC (c : Char) : Bool :=
  c = ' ' || c = '\t' || c = '\n' || c = '\x0b' || c = '\x0c' || c = '\r'

/-- Value of a digit string (already filtered to digits), most significant
first, as `atoi` accumulates it. -/
def digitsVal (cs : List Char) : Int :=
  cs.foldl (fun a c => a * 10 + ((c.toNat : Int) - ('0'.toNat : Int))) 0

/-- C `atoi`: skip leading whitespace, optional sign, then the maximal run
of digits; no digits yields 0. (Overflow is undefined in C and out of the
range any claim exercises.) -/
def atoi (cs : List Char) : Int :=
  match cs.dropWhile isSpaceC with
  | '-' :: rest => - digitsVal (rest.takeWhile Char.isDigit)
  | '+' :: rest => digitsVal (rest.takeWhile Char.isDigit)
  | rest => digitsVal (rest.takeWhile Char.isDigit)

/-- `strtok` tokenization with delimiter set `"="`: the list of maximal
runs of non-`'='` characters (leading/repeated delimiters skipped), which
is how `strtok(buffer, "=")` / `strtok(NULL, "=")` walk the line. -/
def strtokRuns : List Char → List Char → List (List Char)
  | [], acc => if acc = [] then [] else [acc.reverse]
  | c :: rest, acc =>
    if c = '=' then
      if acc = [] then strtokRuns rest []
      else acc.reverse :: strtokRuns rest []
    else strtokRuns rest (c :: acc)

/-! ## Configuration reload (HttpServer::update_configuration) -/

/-- The operational-log events `update_configuration` can print. -/
inductive ConfigEvent where
  /-- "Couldn't open the configuration file ... Using default values." -/
  | warnNoFile
  /-- "Unknown key: %s." -/
  | warnUnknownKey (k : String)
  /-- "Invalid value for key \"%s\", old value will be kept." -/
  | warnInvalidValue (k : String)
  /-- "\"%s\" was set to %d." (INFO, not WARNING) -/
  | infoSet (k : String) (v : Int)
deriving DecidableEq, Repr

/-- One recognized-key branch of the reload loop (httpserver.cpp 210-246):
`changed_value = (atoi(value) != 0) ? atoi(value) : default;` then skip
silently when equal to the current field, assign when `>= 1`, and log a
warning when `<= 0`, an info line otherwise. `cur` is the field's current
value, `set` writes the field. -/
def configBranch (s : serverData) (key : String) (dflt : Int)
    (cur : serverData → Int) (set : serverData → Int → serverData)
    (value : List Char) : serverData × List ConfigEvent :=
  let changed : Int := if atoi value ≠ 0 then atoi value else dflt
  if changed = cur s then (s, [])
  else
    let s' := if changed ≥ 1 then set s changed else s
    (s', [if changed ≤ 0 then .warnInvalidValue key else .infoSet key changed])

/-- The key/value dispatch of the reload loop: the four recognized keys,
anything else logged as unknown. -/
def processKV (s : serverData) (key value : List Char) :
    serverData × List ConfigEvent :=
  if key = "backlog".data then
    configBranch s "backlog" DEFAULT_BACKLOG (fun t => t.backlog)
      (fun t v => { t with backlog := v }) value
  else if key = "max_clients".data then
    configBranch s "max_clients" DEFAULT_MAX_CLIENTS (fun t => t.max_clients)
      (fun t v => { t with max_clients := v }) value
  else if key = "sensor_period".data then
    configBranch s "sensor_period" DEFAULT_SENSOR_PERIOD (fun t => t.sensor_period)
      (fun t v => { t with sensor_period := v }) value
  else if key = "samples_moving_average_filter".data then
    configBranch s "samples_moving_average_filter"
      DEFAULT_SAMPLES_MOVING_AVERAGE_FILTER
      (fun t => t.samples_moving_average_filter)
      (fun t v => { t with samples_moving_average_filter := v }) value
  else
    (s, [.warnUnknownKey ⟨key⟩])

/-- One iteration of the reload loop on a newline-stripped line
(httpserver.cpp 202-247): skip lines without `'='` (`strstr` guard), then
split into key/value with `strtok`. A line whose tokens are exhausted
before a key or a value is produced makes the source pass `NULL` to
`strcmp`/`atoi` (undefined behaviour); those lines are modelled as no-ops
and no theorem relies on them. -/
def processLine (s : serverData) (line : List Char) :
    serverData × List ConfigEvent :=
  if line.contains '=' then
    match strtokRuns line [] with
    | key :: value :: _ => processKV s key value
    | _ => (s, [])
  else (s, [])

/-- The reload loop over the file's lines, accumulating log events. -/
def runConfigLines (s : serverData) :
    List (List Char) → serverData × List ConfigEvent
  | [] => (s, [])
  | l :: ls =>
    let r := processLine s l
    let r' := runConfigLines r.1 ls
    (r'.1, r.2 ++ r'.2)

/-- `HttpServer::update_configuration` (httpserver.cpp 189-249).
`file?` is `none` when `fopen` fails, otherwise the file's lines as
`fgets` + `strcspn` deliver them: split at newlines, newline stripped
(lines are bounded by the 255-byte buffer; no claim exercises longer
ones). On open failure the four configuration fields are reset to the
compiled-in defaults; otherwise each line is processed in order. -/
def update_configuration (file? : Option (List (List Char)))
    (s : serverData) : serverData × List ConfigEvent :=
  match file? with
  | none =>
    ({ s with
        backlog := DEFAULT_BACKLOG
        max_clients := DEFAULT_MAX_CLIENTS
        sensor_period := DEFAULT_SENSOR_PERIOD
        samples_moving_average_filter := DEFAULT_SAMPLES_MOVING_AVERAGE_FILTER },
      [.warnNoFile])
  | some lines => runConfigLines s lines

/-! ## HTTP types (include/http_types.h is not in the sources; the enums
below are reconstructed from their use sites in httpserver.cpp) -/

/-- HTTP methods recognized by `HttpServer::request`. -/
inductive Method where
  | GET
  | POST
deriving DecidableEq, Repr

/-- Mime-type tags indexed into `http_mime_types`. -/
inductive MimeType where
  | HTML
  | FAVICON
  | JPG
  | JSON
deriving DecidableEq, Repr

/-- Status tags indexed into `http_codes`. -/
inductive HttpCode where
  | OK
  | NOT_FOUND
deriving DecidableEq, Repr

/-- Connection directives indexed into `http_conns`. -/
inductive HttpConn where
  | CLOSE
  | KEEP_ALIVE
deriving DecidableEq, Repr

/-- `HttpRequest`: method and route as `HttpServer::request` fills them. -/
structure HttpRequest where
  method : Method
  route : String
deriving DecidableEq, Repr

/-- `HttpResponse`: `route` is either a file path under the server root
(leading `'/'`) or the literal body (the `/update` JSON). -/
structure HttpResponse where
  route : String
  mime_type : MimeType
  code : HttpCode
  conn : HttpConn
deriving DecidableEq, Repr

/-- `HttpServer::not_found` (httpserver.cpp 180-187). -/
def not_found : HttpResponse :=
  { route := "/not_found.html", mime_type := .HTML, code := .NOT_FOUND, conn := .CLOSE }

/-- The JSON body `GET /update` synthesizes from the shared record
(httpserver.cpp 76-87). -/
def updateJson (s : serverData) : String :=
  "\x7b\"backlog\": " ++ toString s.backlog ++
  ",\"max_clients\": " ++ toString s.max_clients ++
  ",\"sensor_period\": " ++ toString s.sensor_period ++
  ",\"samples_moving_average_filter\": " ++ toString s.samples_moving_average_filter ++
  ",\"clients\": " ++ toString s.client_count ++ "\x7d"

/-! ## One iteration of the accept loop (HttpServer::on_accept) -/

/-- The observable actions one loop iteration of `on_accept` can perform
on shared state and on the socket. `semApply` is `Sem::op` — present in
the action alphabet because the specification requires counter mutations
to be bracketed by it; the traces below show whether the code emits it. -/
inductive SrvAction where
  /-- A `Sem::op(delta)` call on the arena-guarding semaphore. -/
  | semApply (delta : Int)
  /-- A write of `shm[0].client_count` (the read-modify-write's store). -/
  | counterWrite (newVal : Int)
  /-- A `this->response(socket, res)` call: bytes are written. -/
  | sendResponse (res : HttpResponse)
deriving DecidableEq, Repr

/-- The body of the `while` loop in `HttpServer::on_accept`
(httpserver.cpp 53-101) for one parsed request: starting from
`res = not_found()`, dispatch on the fixed route table, mutate the shared
record, and either call `response` or (`POST /dc`) `continue` without
writing. Returns the new shared record and the trace of actions; in every
case the loop then proceeds to the next `request` on the same socket. -/
def handleRequest (s : serverData) (req : HttpRequest) :
    serverData × List SrvAction :=
  match req.method with
  | .GET =>
    if req.route = "/" then
      ({ s with client_count := s.client_count + 1 },
        [.counterWrite (s.client_count + 1),
          .sendResponse
            { route := "/index.html", mime_type := .HTML, code := .OK, conn := .CLOSE }])
    else if req.route = "/images/favicon.ico" then
      (s, [.sendResponse
            { route := req.route, mime_type := .FAVICON, code := .OK, conn := .CLOSE }])
    else if req.route = "/images/404.jpg" then
      (s, [.sendResponse
            { route := req.route, mime_type := .JPG, code := .OK, conn := .CLOSE }])
    else if req.route = "/update" then
      (s, [.sendResponse
            { route := updateJson s, mime_type := .JSON, code := .OK, conn := .CLOSE }])
    else
      (s, [.sendResponse not_found])
  | .POST =>
    if req.route = "/dc" then
      if s.client_count > 0 then
        ({ s with client_count := s.client_count - 1 },
          [.counterWrite (s.client_count - 1)])
      else (s, [])
    else
      (s, [.sendResponse not_found])

/-! ## Serving a response (HttpServer::response) -/

/-- `SERVER_ROOT` from include/httpserver.h. -/
def SERVER_ROOT : String := "web"

/-- `RESPONSE_SIZE` from include/httpserver.h: the stack buffer `fread`
fills, bounding how many bytes of a file one read can deliver. -/
def RESPONSE_SIZE : Nat := 100000

/-- The single `socket.write` performed at the end of
`HttpServer::response`: the header fields it serializes (the `Server`
name, `Content-Language: en` and the wall-clock `Date` line are constants
or time-of-day and carry no information about the claims) followed by
`bytes_read` bytes of body. -/
structure HttpWrite where
  code : HttpCode
  mime_type : MimeType
  conn : HttpConn
  contentLength : Int
  body : List Char
deriving DecidableEq, Repr

/-- `HttpServer::response` (httpserver.cpp 131-170). `fs` maps a path to
a file's bytes (`none` when `fopen` fails). When `res.route` starts with
`'/'` the file `SERVER_ROOT ++ route` is read: open failure replaces
`res` by `not_found()` and leaves the locals `bytes_read`/`buffer`
untouched — their indeterminate contents, modelled by `junk`, are what
the write then emits (the source also calls `fclose(NULL)` on this path,
which is undefined behaviour in C; the model continues as the source
intends). A zero-byte `fread` replaces `res` by `not_found()` with
`bytes_read = 0`. In every case exactly one write is produced. -/
def response (fs : String → Option (List Char)) (junk : List Char)
    (res : HttpResponse) : HttpWrite :=
  if res.route.data.head? = some '/' then
    match fs (SERVER_ROOT ++ res.route) with
    | none =>
      { code := not_found.code, mime_type := not_found.mime_type,
        conn := not_found.conn,
        contentLength := (junk.length : Int), body := junk }
    | some content =>
      let r := content.take RESPONSE_SIZE
      if r.length = 0 then
        { code := not_found.code, mime_type := not_found.mime_type,
          conn := not_found.conn, contentLength := 0, body := [] }
      else
        { code := res.code, mime_type := res.mime_type, conn := res.conn,
          contentLength := (r.length : Int), body := r }
  else
    { code := res.code, mime_type := res.mime_type, conn := res.conn,
      contentLength := (res.route.data.length : Int), body := res.route.data }

/-! ## Semaphore (src/sem.cpp) and message queue (include/msg_queue.h) -/

/-- The error causes `Sem::Sem` / `MsgQueue::MsgQueue` throw
`std::runtime_error` for. -/
inductive ResourceError where
  | ftokFailed
  | createExists
  | attachMissing
deriving DecidableEq, Repr

/-- A `Sem` handle: the fields the source stores (`semid` identifies the
system object; `value` stands for the system object's current count,
which the handle reaches through `semid`). `creator` is the constructor's
`create` argument; no execution identity is recorded (contrast
`MsgQueueHandle`). -/
structure SemState where
  value : Int
  creator : Bool
deriving DecidableEq, Repr

/-- `Sem::Sem` (sem.cpp 10-32), after a successful `ftok`: with
`create = true`, `semget(IPC_CREAT | IPC_EXCL)` fails when a record for
the key exists, else the new semaphore's count is set to 1; with
`create = false`, `semget(key, 0, 0)` fails when none exists, else it
attaches to the existing count. `existing` is the attached system
object's count when a record for the key exists. -/
def semCtor (existing : Option Int) (create : Bool) :
    Except ResourceError SemState :=
  if create then
    match existing with
    | some _ => .error .createExists
    | none => .ok { value := 1, creator := true }
  else
    match existing with
    | some v => .ok { value := v, creator := false }
    | none => .error .attachMissing

/-- `Sem::~Sem` (sem.cpp 36-40): whether the destructor removes the
system object (`semctl(IPC_RMID)`). It consults only the `creator` flag;
the destroying execution context's identity plays no part. -/
def semDtorRemoves (h : SemState) : Bool :=
  h.creator

/-- A `MsgQueue` handle: `creator` is the constructor's `create`
argument, `pid` the `gettid()` of the constructing context
(include/msg_queue.h line 57). -/
structure MsgQueueHandle where
  creator : Bool
  pid : Int
deriving DecidableEq, Repr

/-- `MsgQueue::MsgQueue` (include/msg_queue.h 51-70), after a successful
`ftok`: `msgget(IPC_CREAT | IPC_EXCL)` with `create = true` fails when a
record exists; `msgget(key, 0)` with `create = false` fails when none
does. `tid` is the constructing context's `gettid()`. -/
def msgQueueCtor (existing : Bool) (create : Bool) (tid : Int) :
    Except ResourceError MsgQueueHandle :=
  if create then
    if existing then .error .createExists
    else .ok { creator := true, pid := tid }
  else
    if existing then .ok { creator := false, pid := tid }
    else .error .attachMissing

/-- `MsgQueue::~MsgQueue` (include/msg_queue.h 72-77): the destructor
removes the system object only when the handle is the creator and the
destroying context's `gettid()` equals the one recorded at construction.
-/
def msgQueueDtorRemoves (h : MsgQueueHandle) (currentTid : Int) : Bool :=
  h.creator && (h.pid == currentTid)

/-- The teardown rule the specification states for every handle type
(spec §3, §8), written from the spec's words for comparison with the
source destructors: remove only when the handle is the creator and the
destroying context's identity matches the creating one. -/
def specDtorRemoves (creator : Bool) (createdCtx destroyedCtx : Int) : Bool :=
  creator && (createdCtx == destroyedCtx)

/-! ## Semaphore operation semantics (Sem::op)

`Sem::op` (sem.cpp 76-82) forwards its argument as `sem_op` of a single
`semop` call; the blocking semantics live in the kernel, outside the
repository. Modelled from the spec (§4.2) and the contract documented at
`Sem::op`: `op = 0` blocks until the count is 0; `op > 0` adds; `op < 0`
blocks until the count is at least `|op|`, then subtracts. -/

/-- Modelled from the spec: enabledness of one `semop` operation — the
condition under which `Sem::op(op)` returns instead of blocking. -/
def semOpEnabled (v : Int) (op : Int) : Prop :=
  if op = 0 then v = 0
  else if op > 0 then True
  else 0 ≤ v + op

instance (v op : Int) : Decidable (semOpEnabled v op) := by
  unfold semOpEnabled
  split
  · exact inferInstance
  · split <;> exact inferInstance

/-- Modelled from the spec: the count after one enabled `semop`
operation. -/
def semOpStep (v : Int) (op : Int) : Int :=
  if op = 0 then v else v + op

/-- A completed sequence of `Sem::op` calls: each call was enabled when
it ran (blocked calls have not completed and contribute no transition). -/
inductive SemTrace : Int → List Int → Int → Prop where
  | nil (v : Int) : SemTrace v [] v
  | cons {v v' : Int} {op : Int} {ops : List Int} :
      semOpEnabled v op → SemTrace (semOpStep v op) ops v' →
      SemTrace v (op :: ops) v'

/-! ## Specification vocabulary for the reload loop

Helpers naming, for a recognized key, the per-key default, field access
and field update of the shared record, and the resolved value of the
ternary `changed_value = (atoi(value) != 0) ? atoi(value) : default`.
These restate, per key, data already in `processKV`; the theorems use
them to quantify over the four recognized keys at once. -/

/-- The recognized configuration keys. -/
def recognizedKey (key : List Char) : Prop :=
  key = "backlog".data ∨ key = "max_clients".data ∨
  key = "sensor_period".data ∨ key = "samples_moving_average_filter".data

instance (key : List Char) : Decidable (recognizedKey key) := by
  unfold recognizedKey
  exact inferInstance

/-- The compiled-in default the reload loop falls back to for a key. -/
def defaultOf (key : List Char) : Int :=
  if key = "backlog".data then DEFAULT_BACKLOG
  else if key = "max_clients".data then DEFAULT_MAX_CLIENTS
  else if key = "sensor_period".data then DEFAULT_SENSOR_PERIOD
  else DEFAULT_SAMPLES_MOVING_AVERAGE_FILTER

/-- The shared-record field a recognized key names. -/
def getField (s : serverData) (key : List Char) : Int :=
  if key = "backlog".data then s.backlog
  else if key = "max_clients".data then s.max_clients
  else if key = "sensor_period".data then s.sensor_period
  else s.samples_moving_average_filter

/-- Update of the shared-record field a recognized key names. -/
def setField (s : serverData) (key : List Char) (v : Int) : serverData :=
  if key = "backlog".data then { s with backlog := v }
  else if key = "max_clients".data then { s with max_clients := v }
  else if key = "sensor_period".data then { s with sensor_period := v }
  else { s with samples_moving_average_filter := v }

/-- The value the reload loop resolves a key's raw value to:
`(atoi(value) != 0) ? atoi(value) : default`. -/
def resolvedValue (key value : List Char) : Int :=
  if atoi value ≠ 0 then atoi value else defaultOf key

/-! # Theorems -/

/-! ## Shared lemmas about the reload loop -/

/-- Each recognized-key branch of the reload loop writes only its own
configuration field; in particular the live `client_count` is untouched. -/
theorem processKV_client_count (s : serverData) (key value : List Char) :
    (processKV s key value).1.client_count = s.client_count := by
  simp only [processKV, configBranch]
  repeat' split
  all_goals rfl

/-- `processLine` preserves `client_count`. -/
theorem processLine_client_count (s : serverData) (line : List Char) :
    (processLine s line).1.client_count = s.client_count := by
  unfold processLine
  split
  · split
    · exact processKV_client_count ..
    · rfl
  · rfl

/-- The whole reload loop preserves `client_count`. -/
theorem runConfigLines_client_count (s : serverData)
    (lines : List (List Char)) :
    (runConfigLines s lines).1.client_count = s.client_count := by
  induction lines generalizing s with
  | nil => rfl
  | cons l ls ih =>
    unfold runConfigLines
    exact (ih (processLine s l).1).trans (processLine_client_count s l)

/-! ## Claim C10 -/

/-- C10: every execution of `update_configuration` leaves the
`client_count` field of the shared record unchanged, whether the
configuration file opens successfully (`some lines`) or not (`none`) —
reload never resets or alters the live client counter. -/
theorem c10_reload_preserves_client_count
    (file? : Option (List (List Char))) (s : serverData) :
    (update_configuration file? s).1.client_count = s.client_count := by
  cases file? with
  | none => rfl
  | some lines => exact runConfigLines_client_count s lines

/-! ## Claim C4 -/

/-- C4: when the configuration file cannot be opened (`fopen` returns
`NULL`, modelled by `file? = none`), `update_configuration` leaves every
configuration field of the shared record set to its compiled-in default
(`DEFAULT_BACKLOG`, `DEFAULT_MAX_CLIENTS`, `DEFAULT_SENSOR_PERIOD`,
`DEFAULT_SAMPLES_MOVING_AVERAGE_FILTER`), for every prior state of the
record. -/
theorem c4_missing_file_resets_to_defaults (s : serverData) :
    (update_configuration none s).1.backlog = DEFAULT_BACKLOG ∧
    (update_configuration none s).1.max_clients = DEFAULT_MAX_CLIENTS ∧
    (update_configuration none s).1.sensor_period = DEFAULT_SENSOR_PERIOD ∧
    (update_configuration none s).1.samples_moving_average_filter =
      DEFAULT_SAMPLES_MOVING_AVERAGE_FILTER :=
  ⟨rfl, rfl, rfl, rfl⟩

/-! ## Claim C9 -/

/-- C9: for every request `POST /dc`, if the shared client counter is
greater than 0 it is decremented by exactly 1, if it is 0 it stays 0,
and in both cases no `response` call (hence no response bytes) happens
for that exchange: the trace contains no `sendResponse`, and the
`while (request(...) == 0)` loop then awaits the next request on the
same connection. -/
theorem c9_post_dc_decrements_without_response (s : serverData) :
    (0 < s.client_count →
      (handleRequest s ⟨.POST, "/dc"⟩).1.client_count = s.client_count - 1) ∧
    (s.client_count = 0 →
      (handleRequest s ⟨.POST, "/dc"⟩).1.client_count = 0) ∧
    (∀ r : HttpResponse,
      SrvAction.sendResponse r ∉ (handleRequest s ⟨.POST, "/dc"⟩).2) := by
  refine ⟨fun h => ?_, fun h => ?_, fun r => ?_⟩
  · simp [handleRequest, h]
  · simp [handleRequest, h]
  · by_cases h : 0 < s.client_count <;> simp [handleRequest, h]

/-- C9 witness: at a concrete record with `client_count = 2`, the
counter drops to 1 and no response action is emitted. -/
theorem c9_witness :
    (handleRequest ⟨2, 1000, 1000, 5, 2⟩ ⟨.POST, "/dc"⟩).1.client_count = 1 ∧
    SrvAction.sendResponse not_found ∉
      (handleRequest ⟨2, 1000, 1000, 5, 2⟩ ⟨.POST, "/dc"⟩).2 :=
  ⟨(c9_post_dc_decrements_without_response ⟨2, 1000, 1000, 5, 2⟩).1 (by norm_num),
    (c9_post_dc_decrements_without_response ⟨2, 1000, 1000, 5, 2⟩).2.2 not_found⟩

/-! ## Claim C1 -/

/-- C1 (the spec's required locking discipline, §5/§9, against the
source): the claim says every read-modify-write of the shared client
counter in `on_accept` is bracketed by `Sem::op(-1)` before and
`Sem::op(+1)` after. The source performs the increment (`GET /`,
httpserver.cpp 64) and the decrement (`POST /dc`, httpserver.cpp 93-94)
directly on `shm[0].client_count`: the traces below contain the counter
store but no `semApply` action at all, on either side of it. -/
theorem c1_counter_mutation_unguarded :
    (handleRequest ⟨2, 1000, 1000, 5, 0⟩ ⟨.GET, "/"⟩).2 =
      [.counterWrite 1,
        .sendResponse ⟨"/index.html", .HTML, .OK, .CLOSE⟩] ∧
    (∀ d : Int, SrvAction.semApply d ∉
      (handleRequest ⟨2, 1000, 1000, 5, 0⟩ ⟨.GET, "/"⟩).2) ∧
    (handleRequest ⟨2, 1000, 1000, 5, 1⟩ ⟨.POST, "/dc"⟩).2 =
      [.counterWrite 0] ∧
    (∀ d : Int, SrvAction.semApply d ∉
      (handleRequest ⟨2, 1000, 1000, 5, 1⟩ ⟨.POST, "/dc"⟩).2) := by
  refine ⟨by decide, fun d => ?_, by decide, fun d => ?_⟩
  · simp [handleRequest]
  · simp [handleRequest]

/-! ## Claim C2 -/

/-- C2 counterexample (the spec's own scenario, §8): with current
`backlog = 3` and the file line `backlog=abc`, `atoi("abc")` is 0, so the
ternary resolves `changed_value` to `DEFAULT_BACKLOG = 2`; `2 ≠ 3` and
`2 ≥ 1`, so the field is overwritten with the default and an INFO line —
not a warning — is logged. The claim's "keeps its prior value unchanged
and a warning is recorded" fails on both counts. -/
theorem c2_counterexample :
    (update_configuration (some ["backlog=abc".data])
        ⟨3, 1000, 1000, 5, 0⟩).1.backlog = 2 ∧
    ConfigEvent.warnInvalidValue "backlog" ∉
      (update_configuration (some ["backlog=abc".data])
        ⟨3, 1000, 1000, 5, 0⟩).2 := by
  decide

/-- C2 amended: for a reload line whose value does not parse as a nonzero
integer (`atoi` returns 0), the recognized key's value resolves to that
key's compiled-in default; if the default equals the field's current
value the line is skipped silently, otherwise the field is set to the
default and an informational message (not a warning) is recorded. -/
theorem c2_malformed_value_resolves_to_default (s : serverData)
    (key value : List Char) (hkey : recognizedKey key)
    (hv : atoi value = 0) :
    processKV s key value =
      (if defaultOf key = getField s key then (s, [])
       else (setField s key (defaultOf key),
         [.infoSet ⟨key⟩ (defaultOf key)])) := by
  rcases hkey with h | h | h | h <;> subst h <;>
    simp [processKV, configBranch, hv, defaultOf, getField, setField,
      DEFAULT_BACKLOG, DEFAULT_MAX_CLIENTS, DEFAULT_SENSOR_PERIOD,
      DEFAULT_SAMPLES_MOVING_AVERAGE_FILTER]

/-- C2 witness: the amended statement at current `backlog = 3` and line
value `abc` — the field becomes `DEFAULT_BACKLOG` with an info event. -/
theorem c2_witness :
    processKV ⟨3, 1000, 1000, 5, 0⟩ "backlog".data "abc".data =
      (if defaultOf "backlog".data =
          getField ⟨3, 1000, 1000, 5, 0⟩ "backlog".data
       then (⟨3, 1000, 1000, 5, 0⟩, [])
       else (setField ⟨3, 1000, 1000, 5, 0⟩ "backlog".data
           (defaultOf "backlog".data),
         [.infoSet ⟨"backlog".data⟩ (defaultOf "backlog".data)])) :=
  c2_malformed_value_resolves_to_default ⟨3, 1000, 1000, 5, 0⟩
    "backlog".data "abc".data (Or.inl rfl) (by decide)

/-! ## Claim C3 -/

/-- A recognized-key branch rejects a non-positive resolved value: when
the key's default is positive (all four are) and the field's current
value is non-negative, a resolved `changed_value ≤ 0` leaves the record
untouched and logs exactly the invalid-value warning. -/
theorem configBranch_reject (s : serverData) (k : String) (dflt : Int)
    (cur : serverData → Int) (set : serverData → Int → serverData)
    (value : List Char) (hd : 1 ≤ dflt) (hcur : 0 ≤ cur s)
    (hnp : (if atoi value ≠ 0 then atoi value else dflt) ≤ 0) :
    configBranch s k dflt cur set value = (s, [.warnInvalidValue k]) := by
  have hav : atoi value ≠ 0 := by
    intro h
    rw [if_neg (by simp [h])] at hnp
    omega
  rw [if_pos hav] at hnp
  simp only [configBranch, if_pos hav]
  rw [if_neg (by omega), if_neg (by omega), if_pos hnp]

/-- C3: in every reload, a recognized key whose resolved value
(`changed_value`) is 0 or negative is rejected: the shared record is left
entirely unchanged and the "Invalid value ... old value will be kept"
warning is the only event. The hypothesis `0 ≤ getField s key` is the
record's reachable-state invariant (fields start zero-initialized and are
only ever assigned values ≥ 1); it rules out the silent `continue` on
`changed_value == current`, which would need a negative current value.
(A resolved value of exactly 0 cannot occur — `atoi = 0` resolves to the
positive default — so that part of the claim holds vacuously.) -/
theorem c3_nonpositive_resolved_value_rejected (s : serverData)
    (key value : List Char) (hkey : recognizedKey key)
    (hcur : 0 ≤ getField s key)
    (hnp : resolvedValue key value ≤ 0) :
    processKV s key value = (s, [.warnInvalidValue ⟨key⟩]) := by
  rcases hkey with h | h | h | h <;> subst h
  · exact configBranch_reject s "backlog" DEFAULT_BACKLOG
      (fun t => t.backlog) (fun t v => { t with backlog := v }) value
      (by decide) hcur hnp
  · exact configBranch_reject s "max_clients" DEFAULT_MAX_CLIENTS
      (fun t => t.max_clients) (fun t v => { t with max_clients := v }) value
      (by decide) hcur hnp
  · exact configBranch_reject s "sensor_period" DEFAULT_SENSOR_PERIOD
      (fun t => t.sensor_period) (fun t v => { t with sensor_period := v }) value
      (by decide) hcur hnp
  · exact configBranch_reject s "samples_moving_average_filter"
      DEFAULT_SAMPLES_MOVING_AVERAGE_FILTER
      (fun t => t.samples_moving_average_filter)
      (fun t v => { t with samples_moving_average_filter := v }) value
      (by decide) hcur hnp

/-- C3 witness: current `backlog = 3`, line value `-5`: the record is
unchanged and the invalid-value warning is logged. -/
theorem c3_witness :
    processKV ⟨3, 1000, 1000, 5, 0⟩ "backlog".data "-5".data =
      (⟨3, 1000, 1000, 5, 0⟩, [.warnInvalidValue ⟨"backlog".data⟩]) :=
  c3_nonpositive_resolved_value_rejected ⟨3, 1000, 1000, 5, 0⟩
    "backlog".data "-5".data (Or.inl rfl) (by decide) (by decide)

/-! ## Claim C5 -/

/-- C5 counterexample: `Sem::~Sem` (sem.cpp 36-40) consults only the
`creator` flag — no execution identity is recorded at creation or
compared at destruction — so a creator handle left in a duplicated
process image still removes the system object. Concretely, for a handle
created by the context with identity 1 and destroyed by a duplicate with
identity 2, the spec's teardown rule (`specDtorRemoves true 1 2`) says
keep, while the source destructor removes. -/
theorem c5_counterexample :
    semDtorRemoves { value := 1, creator := true } = true ∧
    specDtorRemoves true 1 2 = false := by
  decide

/-- C5 amended: destroying a non-creator handle (semaphore or message
queue) never removes the underlying system object. The message queue
creator's destructor removes it exactly when the destroying context's
thread identity matches the one recorded at creation — the spec's rule.
The semaphore creator's destructor, however, removes the object
unconditionally: it performs no identity check. -/
theorem c5_teardown_rules :
    (∀ v : Int, semDtorRemoves { value := v, creator := false } = false) ∧
    (∀ p c : Int, msgQueueDtorRemoves { creator := false, pid := p } c = false) ∧
    (∀ p c : Int,
      msgQueueDtorRemoves { creator := true, pid := p } c =
        specDtorRemoves true p c) ∧
    (∀ v : Int, semDtorRemoves { value := v, creator := true } = true) :=
  ⟨fun _ => rfl, fun _ _ => rfl, fun _ _ => rfl, fun _ => rfl⟩

/-! ## Claim C7 -/

/-- C7: creating a semaphore or message queue with `create = true` for a
key that already has a record fails with a resource error rather than
attaching (`IPC_CREAT | IPC_EXCL`); attaching with `create = false` when
no record exists also fails; and on successful creation the semaphore's
count is set to exactly 1 (`this->set(1)`, sem.cpp 21). -/
theorem c7_strict_create_attach_semantics :
    (∀ v : Int, semCtor (some v) true = .error .createExists) ∧
    semCtor none false = .error .attachMissing ∧
    semCtor none true = .ok { value := 1, creator := true } ∧
    (∀ tid : Int, msgQueueCtor true true tid = .error .createExists) ∧
    (∀ tid : Int, msgQueueCtor false false tid = .error .attachMissing) :=
  ⟨fun _ => rfl, rfl, rfl, fun _ => rfl, fun _ => rfl⟩

/-! ## Claim C6 -/

/-- If an operation is enabled at a non-negative count, the count after
it is still non-negative. -/
theorem semOpStep_nonneg {v op : Int} (hv : 0 ≤ v)
    (h : semOpEnabled v op) : 0 ≤ semOpStep v op := by
  unfold semOpEnabled at h
  unfold semOpStep
  split
  · exact hv
  · rename_i h0
    rw [if_neg h0] at h
    split at h
    · rename_i hpos
      omega
    · exact h

/-- C6: the semantics of `Sem::op` (modelled from the `semop` contract
documented in sem.cpp and spec §4.2). (a) Along every completed sequence
of `op` calls from a non-negative count, the count never becomes
negative. (b) `op(0)` returns (is enabled) exactly when the count is 0.
(c) `op(-k)` with `k` greater than the current count is not enabled — the
call blocks. (d) Once positive calls have raised the count `v` to at
least `k`, `op(-k)` is enabled and subtracts, leaving the non-negative
count `v - k`. -/
theorem c6_sem_apply_semantics :
    (∀ (v : Int) (ops : List Int) (v' : Int),
      0 ≤ v → SemTrace v ops v' → 0 ≤ v') ∧
    (∀ v : Int, semOpEnabled v 0 ↔ v = 0) ∧
    (∀ v k : Int, 0 < k → v < k → ¬ semOpEnabled v (-k)) ∧
    (∀ v k : Int, 0 < k → k ≤ v →
      semOpEnabled v (-k) ∧ semOpStep v (-k) = v - k ∧ 0 ≤ v - k) := by
  refine ⟨?_, ?_, ?_, ?_⟩
  · intro v ops v' hv htrace
    induction htrace with
    | nil => exact hv
    | cons henabled _ ih => exact ih (semOpStep_nonneg hv henabled)
  · intro v
    simp [semOpEnabled]
  · intro v k hk hvk
    unfold semOpEnabled
    rw [if_neg (by omega), if_neg (by omega)]
    omega
  · intro v k hk hkv
    unfold semOpEnabled semOpStep
    rw [if_neg (by omega), if_neg (by omega), if_neg (by omega)]
    exact ⟨by omega, by ring, by omega⟩

/-- C6 witness: the completed sequence `op(+2); op(-3); op(0)` from
count 1 runs 1 → 3 → 0 → 0, ending non-negative; and `op(-2)` at count 1
is blocked. -/
theorem c6_witness :
    (0 : Int) ≤ 0 ∧ ¬ semOpEnabled 1 (-2) :=
  ⟨c6_sem_apply_semantics.1 1 [2, -3, 0] 0 (by norm_num)
      (by
        refine .cons (by decide) ?_
        rw [show semOpStep 1 2 = 3 from by decide]
        refine .cons (by decide) ?_
        rw [show semOpStep 3 (-3) = 0 from by decide]
        refine .cons (by decide) ?_
        rw [show semOpStep 0 0 = 0 from by decide]
        exact .nil 0),
    c6_sem_apply_semantics.2.2.1 1 2 (by norm_num) (by norm_num)⟩

/-! ## Claim C8 -/

/-- C8 counterexample: serving `GET /` when `web/index.html` cannot be
opened while `web/not_found.html` exists with contents `X`. The source
replaces `res` by `not_found()` — so the status degrades to 404 — but it
never re-opens `/not_found.html`: the locals `bytes_read`/`buffer` keep
their indeterminate values (here the junk byte `J`) and those are what
the write emits. The response body is therefore not the `/not_found.html`
body the claim promises. (On this same path the source also calls
`fclose(NULL)`, which is undefined behaviour.) -/
theorem c8_counterexample :
    ((fun p => if p = "web/not_found.html" then some ['X'] else none)
        "web/not_found.html" = some ['X']) ∧
    (response
        (fun p => if p = "web/not_found.html" then some ['X'] else none)
        ['J'] ⟨"/index.html", .HTML, .OK, .CLOSE⟩).code = .NOT_FOUND ∧
    (response
        (fun p => if p = "web/not_found.html" then some ['X'] else none)
        ['J'] ⟨"/index.html", .HTML, .OK, .CLOSE⟩).body = ['J'] ∧
    ['J'] ≠ ['X'] := by
  refine ⟨rfl, rfl, rfl, by decide⟩

/-- C8 amended: when serving a route whose target starts with a path
separator, a failure to open the file or a zero-byte read degrades the
response's status line to 404 with the `not_found()` header fields
(HTML mime, close directive), but the body is not re-read from
`/not_found.html`: an open failure emits the indeterminate contents of
the uninitialized buffer and a zero-byte read emits an empty body. In
every such partial-failure case a full response (header plus body) is
still built and written to the socket in the single final
`socket.write` — the connection is never left without a write. -/
theorem c8_partial_failure_degrades_to_404
    (fs : String → Option (List Char)) (junk : List Char)
    (res : HttpResponse) (hroute : res.route.data.head? = some '/')
    (hfail : fs (SERVER_ROOT ++ res.route) = none ∨
      fs (SERVER_ROOT ++ res.route) = some []) :
    (response fs junk res).code = .NOT_FOUND ∧
    (response fs junk res).mime_type = .HTML ∧
    (response fs junk res).conn = .CLOSE ∧
    (fs (SERVER_ROOT ++ res.route) = none →
      (response fs junk res).body = junk) ∧
    (fs (SERVER_ROOT ++ res.route) = some [] →
      (response fs junk res).body = []) := by
  rcases hfail with hfs | hfs <;>
    simp [response, hroute, hfs, not_found, RESPONSE_SIZE]

/-- C8 witness: a file system with no files at all, junk byte `J`,
serving `/index.html`: the write carries status 404 and the junk body. -/
theorem c8_witness :
    (response (fun _ => (none : Option (List Char))) ['J']
        ⟨"/index.html", .HTML, .OK, .CLOSE⟩).code = .NOT_FOUND ∧
    (response (fun _ => (none : Option (List Char))) ['J']
        ⟨"/index.html", .HTML, .OK, .CLOSE⟩).mime_type = .HTML ∧
    (response (fun _ => (none : Option (List Char))) ['J']
        ⟨"/index.html", .HTML, .OK, .CLOSE⟩).conn = .CLOSE ∧
    ((fun _ => (none : Option (List Char))) (SERVER_ROOT ++ "/index.html") = none →
      (response (fun _ => (none : Option (List Char))) ['J']
        ⟨"/index.html", .HTML, .OK, .CLOSE⟩).body = ['J']) ∧
    ((fun _ => (none : Option (List Char))) (SERVER_ROOT ++ "/index.html") = some [] →
      (response (fun _ => (none : Option (List Char))) ['J']
        ⟨"/index.html", .HTML, .OK, .CLOSE⟩).body = []) :=
  c8_partial_failure_degrades_to_404 (fun _ => (none : Option (List Char)))
    ['J'] ⟨"/index.html", .HTML, .OK, .CLOSE⟩ rfl (Or.inl rfl)
